import Mathlib

/-!
# chat-api: a shallow embedding of the request handlers

The development follows `internal/handlers/handlers.go` and
`internal/models/models.go`.  Go strings that reach the handlers are modelled
as Lean `String`s (sequences of Unicode scalar values), `len` is the UTF-8 byte
length, the relational store behind `gorm.DB` is modelled as two row lists with
auto-increment counters, and every store call takes an explicit fault flag that
makes it fail with a storage error.
-/

namespace ChatApi

/-! ## Go runtime pieces used by the handlers -/

/-- Go `unicode.IsSpace`: the Latin-1 white space characters and the code points
with the Unicode `White_Space` property. -/
def isSpace (c : Char) : Bool :=
  let n := c.toNat
  if n ≤ 0xFF then
    n = 0x09 || n = 0x0A || n = 0x0B || n = 0x0C || n = 0x0D || n = 0x20 || n = 0x85 || n = 0xA0
  else
    n = 0x1680 || (0x2000 ≤ n && n ≤ 0x200A) || n = 0x2028 || n = 0x2029 || n = 0x202F
      || n = 0x205F || n = 0x3000

/-- Go `strings.TrimSpace` on a valid UTF-8 string: all leading and trailing
white space (as defined by `isSpace`) removed. -/
def TrimSpace (s : String) : String :=
  String.mk (((s.data.dropWhile isSpace).reverse.dropWhile isSpace).reverse)

/-- Go `len(s)` for a string: the number of bytes of its UTF-8 encoding. -/
def len (s : String) : Nat :=
  (s.data.map Char.utf8Size).sum

/-- The number of characters (Unicode code points) of a string,
Go `utf8.RuneCountInString`. -/
def runeCount (s : String) : Nat :=
  s.data.length

/-- Value of a decimal digit character. -/
def digitVal (c : Char) : Option Nat :=
  if 48 ≤ c.toNat ∧ c.toNat ≤ 57 then some (c.toNat - 48) else none

/-- Value of a non-empty run of decimal digits, most significant first,
continuing from the accumulator `acc`. -/
def digitsVal : List Char → Nat → Option Nat
  | [], acc => some acc
  | c :: cs, acc =>
    match digitVal c with
    | some d => digitsVal cs (acc * 10 + d)
    | none => none

/-- The integer written by a decimal numeral with an optional leading sign,
of any magnitude; `none` when the string is not such a numeral. -/
def decimalValue (s : String) : Option Int :=
  match s.data with
  | [] => none
  | c :: cs =>
    let neg := decide (c = '-')
    let ds := if c = '-' ∨ c = '+' then cs else c :: cs
    match ds with
    | [] => none
    | d :: ds' =>
      match digitsVal (d :: ds') 0 with
      | some n => some (if neg then -(n : Int) else (n : Int))
      | none => none

/-- Smallest value of Go's 64-bit `int`. -/
def minInt : Int := -(2 ^ 63)

/-- Largest value of Go's 64-bit `int`. -/
def maxInt : Int := 2 ^ 63 - 1

/-- Go `strconv.Atoi` on a 64-bit platform: `some n` when the call returns
`(n, nil)`, `none` when it returns an error (a syntax error, or a range error
for a numeral outside the `int` range). -/
def Atoi (s : String) : Option Int :=
  match decimalValue s with
  | some v => if minInt ≤ v ∧ v ≤ maxInt then some v else none
  | none => none

/-- Go conversion `uint(n)` of an `int` on a 64-bit platform. -/
def toUint (n : Int) : Nat :=
  (n % (2 ^ 64 : Int)).toNat

/-! ## Data model (`internal/models/models.go`) -/

/-- A row of table `chats`.  The `Messages` relation of the Go struct is not a
column: no handler preloads it, so it is always empty and omitted from JSON.
`CreatedAt` is a point in time, counted in clock ticks. -/
structure Chat where
  ID : Nat
  Title : String
  CreatedAt : Nat
deriving DecidableEq, Repr

/-- A row of table `messages`. -/
structure Message where
  ID : Nat
  ChatID : Nat
  Text : String
  CreatedAt : Nat
deriving DecidableEq, Repr

/-! ## The relational store behind `gorm.DB` -/

/-- Contents of the database: the rows of both tables in insertion order, the
next values of the two auto-increment keys, and whether the backend enforces
the foreign key `messages.chat_id → chats.id ON DELETE CASCADE`. -/
structure Store where
  chats : List Chat
  messages : List Message
  nextChatID : Nat
  nextMessageID : Nat
  foreignKeys : Bool
deriving DecidableEq, Repr

/-- The freshly migrated database. -/
def Store.empty (fk : Bool) : Store :=
  { chats := [], messages := [], nextChatID := 1, nextMessageID := 1, foreignKeys := fk }

/-- Errors a store call reports in its `Error` field: `gorm.ErrRecordNotFound`,
or any other failure of the persistence layer. -/
inductive DBError where
  | recordNotFound
  | storage
deriving DecidableEq, Repr

/-- Which store calls of a request fail with a storage error (lost connection,
timeout, ...), one flag per kind of call the handlers issue. -/
structure Faults where
  first : Bool
  create : Bool
  find : Bool
  delete : Bool
deriving DecidableEq, Repr

/-- No store call fails. -/
def Faults.none : Faults :=
  { first := false, create := false, find := false, delete := false }

/-- Row selection `id = ?` on table `chats` with an `int` argument. -/
def chatHasID (id : Int) (c : Chat) : Bool :=
  decide ((c.ID : Int) = id)

/-- Row selection `chat_id = ?` on table `messages` with an `int` argument. -/
def messageInChat (id : Int) (m : Message) : Bool :=
  decide ((m.ChatID : Int) = id)

/-- The call `DB.First(&chat, id)`: the row with that primary key, else
`ErrRecordNotFound`; a storage error when the call fails. -/
def Store.First (s : Store) (fault : Bool) (id : Int) : Except DBError Chat :=
  if fault then .error .storage
  else
    match s.chats.find? (chatHasID id) with
    | some c => .ok c
    | none => .error .recordNotFound

/-- The call `DB.Create(&chat)` with a zero `ID`: the row is appended under
the next key and handed back with that key.  A failed call changes nothing. -/
def Store.CreateChat (s : Store) (fault : Bool) (title : String) (createdAt : Nat) :
    Except DBError (Chat × Store) :=
  if fault then .error .storage
  else
    let c : Chat := { ID := s.nextChatID, Title := title, CreatedAt := createdAt }
    .ok (c, { s with chats := s.chats ++ [c], nextChatID := s.nextChatID + 1 })

/-- The call `DB.Create(&message)` with a zero `ID`.  With the foreign key
enforced, a `chat_id` that names no chat is a constraint violation. -/
def Store.CreateMessage (s : Store) (fault : Bool) (chatID : Nat) (text : String)
    (createdAt : Nat) : Except DBError (Message × Store) :=
  if fault then .error .storage
  else if s.foreignKeys && !(s.chats.any (fun c => decide (c.ID = chatID))) then .error .storage
  else
    let m : Message :=
      { ID := s.nextMessageID, ChatID := chatID, Text := text, CreatedAt := createdAt }
    .ok (m, { s with messages := s.messages ++ [m], nextMessageID := s.nextMessageID + 1 })

/-- The row order `created_at DESC`: `a` may come before `b`. -/
def newerFirst (a b : Message) : Prop :=
  b.CreatedAt ≤ a.CreatedAt

instance : DecidableRel newerFirst :=
  fun a b => inferInstanceAs (Decidable (b.CreatedAt ≤ a.CreatedAt))

instance : IsTotal Message newerFirst :=
  ⟨fun a b => Nat.le_total b.CreatedAt a.CreatedAt⟩

instance : IsTrans Message newerFirst :=
  ⟨fun _ _ _ hab hbc => Nat.le_trans hbc hab⟩

/-- The messages of the chat with key `id`, in insertion order. -/
def Store.chatMessages (s : Store) (id : Int) : List Message :=
  s.messages.filter (messageInChat id)

/-- The query `DB.Where("chat_id = ?", id).Order("created_at DESC").Limit(limit).Find(&messages)`:
the chat's messages, newest first, cut after `limit` rows (the handler only
passes limits from 1 to 100).  Rows with equal `created_at` come in an order the
database chooses; the model keeps their insertion order. -/
def Store.FindMessages (s : Store) (fault : Bool) (id : Int) (limit : Int) :
    Except DBError (List Message) :=
  if fault then .error .storage
  else
    .ok (((s.chatMessages id).insertionSort newerFirst).take limit.toNat)

/-- The call `DB.Delete(&models.Chat{}, id)`: removes the rows with that key and
reports how many there were; with the foreign key enforced, the messages of a
removed chat go with it. -/
def Store.DeleteChat (s : Store) (fault : Bool) (id : Int) : Except DBError (Nat × Store) :=
  if fault then .error .storage
  else
    let rows := (s.chats.filter (chatHasID id)).length
    let kept := s.chats.filter (fun c => !chatHasID id c)
    let msgs :=
      if s.foreignKeys && decide (0 < rows) then s.messages.filter (fun m => !messageInChat id m)
      else s.messages
    .ok (rows, { s with chats := kept, messages := msgs })

/-! ## Request handlers (`internal/handlers/handlers.go`) -/

/-- What a handler writes after the status line. -/
inductive Body where
  | error (msg : String)
  | chat (c : Chat)
  | message (m : Message)
  | chatMessages (c : Chat) (ms : List Message)
  | health
  | empty
deriving DecidableEq, Repr

/-- An HTTP response: status code and body. -/
structure Response where
  status : Nat
  body : Body
deriving DecidableEq, Repr

/-- Handler `CreateChat`.  `body` is the outcome of decoding the request body
into the struct with the single field `title`: `none` when `Decode` returns an
error, `some t` when it succeeds with `Title = t`.  `now` is `time.Now()`. -/
def CreateChat (s : Store) (f : Faults) (now : Nat) (body : Option String) : Response × Store :=
  match body with
  | none => (⟨400, .error "Invalid request - body"⟩, s)
  | some reqTitle =>
    let title := TrimSpace reqTitle
    if title = "" ∨ len title > 200 then
      (⟨400, .error "Title must be between 1 and 200 characters"⟩, s)
    else
      match s.CreateChat f.create title now with
      | .error _ => (⟨500, .error "Failed to create chat"⟩, s)
      | .ok (chat, s') => (⟨201, .chat chat⟩, s')

/-- Handler `CreateMessage`.  `id` is the path variable, `body` the outcome of
decoding the request body into the struct with the single field `text`. -/
def CreateMessage (s : Store) (f : Faults) (now : Nat) (id : String) (body : Option String) :
    Response × Store :=
  match Atoi id with
  | none => (⟨400, .error "Invalid chat ID"⟩, s)
  | some chatID =>
    match s.First f.first chatID with
    | .error _ => (⟨404, .error "Chat not found"⟩, s)
    | .ok _ =>
      match body with
      | none => (⟨400, .error "Invalid request body"⟩, s)
      | some reqText =>
        let text := TrimSpace reqText
        if text = "" ∨ len text > 5000 then
          (⟨400, .error "Text must be between 1 and 5000 characters"⟩, s)
        else
          match s.CreateMessage f.create (toUint chatID) text now with
          | .error _ => (⟨500, .error "Failed to create message"⟩, s)
          | .ok (message, s') => (⟨201, .message message⟩, s')

/-- The limit computed at the top of `GetChat` from the query value `limit`
(the empty string when the parameter is absent). -/
def GetChat.limit (limitStr : String) : Int :=
  if limitStr ≠ "" then
    match Atoi limitStr with
    | some l => if l > 0 then (if l > 100 then 100 else l) else 20
    | none => 20
  else 20

/-- The assignment `messages[i], messages[j] = messages[j], messages[i]`. -/
def swap (ms : List Message) (i j : Nat) : List Message :=
  match ms[i]?, ms[j]? with
  | some a, some b => (ms.set i b).set j a
  | _, _ => ms

/-- The loop `for i, j := 0, len(messages)-1; i < j; i, j = i+1, j-1` of
`GetChat`, started at `i`, `j`. -/
def reverseLoop (ms : List Message) (i j : Nat) : List Message :=
  if i < j then reverseLoop (swap ms i j) (i + 1) (j - 1) else ms
termination_by j - i

/-- Handler `GetChat`.  `id` is the path variable, `limitStr` the query value
`limit`.  The error of the message query is not inspected: a failed query leaves
`messages` empty. -/
def GetChat (s : Store) (f : Faults) (id : String) (limitStr : String) : Response × Store :=
  match Atoi id with
  | none => (⟨400, .error "Invalid chat ID"⟩, s)
  | some chatID =>
    let limit := GetChat.limit limitStr
    match s.First f.first chatID with
    | .error _ => (⟨404, .error "Chat not found"⟩, s)
    | .ok chat =>
      let messages :=
        match s.FindMessages f.find chatID limit with
        | .ok ms => ms
        | .error _ => []
      (⟨200, .chatMessages chat (reverseLoop messages 0 (messages.length - 1))⟩, s)

/-- Handler `DeleteChat`. -/
def DeleteChat (s : Store) (f : Faults) (id : String) : Response × Store :=
  match Atoi id with
  | none => (⟨400, .error "Invalid chat ID"⟩, s)
  | some chatID =>
    match s.DeleteChat f.delete chatID with
    | .error _ => (⟨500, .error "Failed to delete chat"⟩, s)
    | .ok (rowsAffected, s') =>
      if rowsAffected = 0 then (⟨404, .error "Chat not found"⟩, s')
      else (⟨204, .empty⟩, s')

/-- Handler `HealthCheck`. -/
def HealthCheck (s : Store) : Response × Store :=
  (⟨200, .health⟩, s)

/-- The messages carried by a response, none unless it is a chat listing. -/
def Response.messages (r : Response) : List Message :=
  match r.body with
  | .chatMessages _ ms => ms
  | _ => []

/-! ## Requests and the route table -/

/-- A request one of the five routes of `InitHandlers` accepts, with the parts
its handler reads: the path variable `id`, the query value `limit`, and the
outcome of decoding the body. -/
inductive Request where
  | createChat (body : Option String)
  | createMessage (id : String) (body : Option String)
  | getChat (id : String) (limitStr : String)
  | deleteChat (id : String)
  | healthCheck
deriving DecidableEq, Repr

/-- The route table of `InitHandlers`: each request goes to its handler. -/
def InitHandlers (s : Store) (f : Faults) (now : Nat) : Request → Response × Store
  | .createChat body => CreateChat s f now body
  | .createMessage id body => CreateMessage s f now id body
  | .getChat id limitStr => GetChat s f id limitStr
  | .deleteChat id => DeleteChat s f id
  | .healthCheck => HealthCheck s

/-- The store after serving a sequence of requests one after the other, each
with its own faults and clock reading. -/
def serve (s : Store) : List (Faults × Nat × Request) → Store
  | [] => s
  | (f, now, r) :: rest => serve (InitHandlers s f now r).2 rest

/-- Referential integrity: every stored message's `chat_id` is the id of some
stored chat. -/
def refIntegrity (s : Store) : Prop :=
  ∀ m ∈ s.messages, ∃ c ∈ s.chats, c.ID = m.ChatID

instance : DecidablePred refIntegrity :=
  fun s => inferInstanceAs (Decidable (∀ m ∈ s.messages, ∃ c ∈ s.chats, c.ID = m.ChatID))

/-! ## Sample stores -/

/-- A store with one chat holding three messages, inserted out of time order. -/
def sampleStore : Store :=
  { chats := [⟨1, "general", 5⟩],
    messages := [⟨1, 1, "a", 10⟩, ⟨2, 1, "b", 30⟩, ⟨3, 1, "c", 20⟩],
    nextChatID := 2, nextMessageID := 4, foreignKeys := true }

/-- A store with one chat holding 102 messages at times 1, 2, ..., 102. -/
def busyStore : Store :=
  { chats := [⟨1, "busy", 0⟩],
    messages := (List.range 102).map (fun i => ⟨i + 1, 1, "m", i + 1⟩),
    nextChatID := 2, nextMessageID := 103, foreignKeys := true }

/-- The lookup `DB.First` fails with a storage error, every other call works. -/
def Faults.firstFails : Faults :=
  { first := true, create := false, find := false, delete := false }

/-- The message query fails with a storage error, every other call works. -/
def Faults.findFails : Faults :=
  { first := false, create := false, find := true, delete := false }

/-- The window the limit rules prescribe for a query value, read off the rule
"20 when omitted or empty, 100 when it denotes an integer greater than 100, the
integer itself when it denotes an integer in 1..100, 20 when it denotes an
integer <= 0 or is non-numeric". -/
def specLimit (limitStr : String) : Int :=
  if limitStr = "" then 20
  else
    match decimalValue limitStr with
    | some v => if 100 < v then 100 else if 1 ≤ v then v else 20
    | none => 20

/-! ## Facts about the runtime model -/

theorem runeCount_le_len (s : String) : runeCount s ≤ len s := by
  unfold runeCount len
  induction s.data with
  | nil => simp
  | cons c cs ih =>
    have hc := Char.utf8Size_pos c
    simp only [List.length_cons, List.map_cons, List.sum_cons]
    omega

theorem runeCount_eq_zero_iff (s : String) : runeCount s = 0 ↔ s = "" := by
  cases s with
  | mk data =>
    cases data with
    | nil => simp [runeCount]
    | cons c cs =>
      simp only [runeCount, List.length_cons]
      constructor
      · intro h
        omega
      · intro h
        exact absurd (congrArg String.data h) (by simp)

theorem TrimSpace_replicate (n : Nat) (c : Char) (hc : isSpace c = false) :
    TrimSpace (String.mk (List.replicate n c)) = String.mk (List.replicate n c) := by
  have hdrop : (List.replicate n c).dropWhile isSpace = List.replicate n c := by
    cases n with
    | zero => rfl
    | succ k => simp [List.replicate_succ, List.dropWhile_cons, hc]
  simp only [TrimSpace, hdrop, List.reverse_replicate]

theorem len_replicate (n : Nat) (c : Char) :
    len (String.mk (List.replicate n c)) = n * c.utf8Size := by
  simp [len]

theorem runeCount_replicate (n : Nat) (c : Char) :
    runeCount (String.mk (List.replicate n c)) = n := by
  simp [runeCount]

/-! ## The in-place reversal of `GetChat` -/

theorem length_swap (ms : List Message) (i j : Nat) : (swap ms i j).length = ms.length := by
  unfold swap
  split <;> simp

theorem getElem?_swap (ms : List Message) (i j k : Nat) (hi : i < ms.length) (hj : j < ms.length) :
    (swap ms i j)[k]? = if k = j then ms[i]? else if k = i then ms[j]? else ms[k]? := by
  unfold swap
  rw [List.getElem?_eq_getElem hi, List.getElem?_eq_getElem hj]
  simp only [List.getElem?_set, List.length_set]
  by_cases hkj : k = j
  · subst hkj
    simp [hj]
  · by_cases hki : k = i
    · subst hki
      simp [hi, Ne.symm hkj, hkj]
    · simp [hkj, hki, Ne.symm hkj, Ne.symm hki]

theorem getElem?_reverseLoop (ms : List Message) (i j : Nat) (hj : j < ms.length) (k : Nat) :
    (reverseLoop ms i j)[k]? = if i ≤ k ∧ k ≤ j then ms[i + j - k]? else ms[k]? := by
  induction ms, i, j using reverseLoop.induct with
  | case1 ms i j hij ih =>
    rw [reverseLoop, if_pos hij]
    have hi : i < ms.length := lt_trans hij hj
    have hj' : j - 1 < (swap ms i j).length := by rw [length_swap]; omega
    rw [ih hj']
    by_cases hin : i + 1 ≤ k ∧ k ≤ j - 1
    · have hout : i ≤ k ∧ k ≤ j := by omega
      rw [if_pos hin, if_pos hout, getElem?_swap ms i j _ hi hj]
      have h1 : i + 1 + (j - 1) - k ≠ j := by omega
      have h2 : i + 1 + (j - 1) - k ≠ i := by omega
      have h3 : i + 1 + (j - 1) - k = i + j - k := by omega
      rw [if_neg h1, if_neg h2, h3]
    · rw [if_neg hin, getElem?_swap ms i j _ hi hj]
      by_cases hkj : k = j
      · subst hkj
        have hout : i ≤ k ∧ k ≤ k := by omega
        have h3 : i + k - k = i := by omega
        rw [if_pos rfl, if_pos hout, h3]
      · by_cases hki : k = i
        · subst hki
          have hout : k ≤ k ∧ k ≤ j := by omega
          have h3 : k + j - k = j := by omega
          rw [if_neg hkj, if_pos rfl, if_pos hout, h3]
        · have hout : ¬ (i ≤ k ∧ k ≤ j) := by omega
          rw [if_neg hkj, if_neg hki, if_neg hout]
  | case2 ms i j hij =>
    rw [reverseLoop, if_neg hij]
    by_cases hin : i ≤ k ∧ k ≤ j
    · have h3 : i + j - k = k := by omega
      rw [if_pos hin, h3]
    · rw [if_neg hin]

theorem reverseLoop_eq_reverse (ms : List Message) :
    reverseLoop ms 0 (ms.length - 1) = ms.reverse := by
  cases hms : ms with
  | nil => rw [reverseLoop]; simp
  | cons m rest =>
    rw [← hms]
    have hpos : 0 < ms.length := by rw [hms]; simp
    apply List.ext_getElem?
    intro k
    rw [getElem?_reverseLoop ms 0 _ (by omega) k]
    by_cases hk : k < ms.length
    · have hin : 0 ≤ k ∧ k ≤ ms.length - 1 := by omega
      rw [if_pos hin, List.getElem?_reverse hk]
      congr 1
      omega
    · have hin : ¬ (0 ≤ k ∧ k ≤ ms.length - 1) := by omega
      rw [if_neg hin, List.getElem?_eq_none (by omega), List.getElem?_eq_none (by simp; omega)]
/-! ## Chat creation -/

/-- C6: a title that is empty after trimming, or longer than 200 characters
after trimming, makes `CreateChat` answer 400. -/
theorem CreateChat_rejects_bad_title (s : Store) (f : Faults) (now : Nat) (title : String)
    (h : runeCount (TrimSpace title) = 0 ∨ 200 < runeCount (TrimSpace title)) :
    (CreateChat s f now (some title)).1.status = 400 := by
  have hguard : TrimSpace title = "" ∨ len (TrimSpace title) > 200 := by
    rcases h with h0 | hlong
    · exact Or.inl ((runeCount_eq_zero_iff _).mp h0)
    · exact Or.inr (lt_of_lt_of_le hlong (runeCount_le_len _))
  simp only [CreateChat, if_pos hguard]

theorem CreateChat_rejects_bad_title_witness :
    (runeCount (TrimSpace " \t ") = 0 ∨ 200 < runeCount (TrimSpace " \t ")) ∧
    (CreateChat (Store.empty true) Faults.none 7 (some " \t ")).1.status = 400 :=
  ⟨Or.inl (by decide),
   CreateChat_rejects_bad_title (Store.empty true) Faults.none 7 " \t " (Or.inl (by decide))⟩

/-- C1: a title of 101 two-byte letters has 101 characters after trimming, yet
`CreateChat` answers 400, because the guard measures bytes. -/
theorem CreateChat_rejects_101_letters :
    runeCount (TrimSpace (String.mk (List.replicate 101 'Я'))) = 101 ∧
    CreateChat (Store.empty true) Faults.none 7 (some (String.mk (List.replicate 101 'Я')))
      = (⟨400, .error "Title must be between 1 and 200 characters"⟩, Store.empty true) := by
  have hsp : isSpace 'Я' = false := by decide
  have hlen : len (String.mk (List.replicate 101 'Я')) = 202 := by
    rw [len_replicate]; decide
  refine ⟨by rw [TrimSpace_replicate 101 _ hsp, runeCount_replicate], ?_⟩
  simp only [CreateChat, TrimSpace_replicate 101 _ hsp, hlen]
  simp

/-! ## Reading a chat -/

theorem Atoi_ne_empty (t : String) (v : Int) (h : Atoi t = some v) : t ≠ "" := by
  intro ht
  subst ht
  simp [Atoi, decimalValue] at h

theorem GetChat_limit_of_pos (t : String) (k : Int) (h : Atoi t = some k) (hk : 0 < k) :
    GetChat.limit t = min k 100 := by
  have hne := Atoi_ne_empty t k h
  simp only [GetChat.limit, h, if_pos hne, gt_iff_lt, if_pos hk]
  split <;> omega

theorem First_ok_of_mem (s : Store) (id : Int) (c : Chat) (hc : c ∈ s.chats)
    (hid : (c.ID : Int) = id) : ∃ c', s.First false id = .ok c' := by
  unfold Store.First
  cases hfind : s.chats.find? (chatHasID id) with
  | some c' => exact ⟨c', by simp⟩
  | none =>
    rw [List.find?_eq_none] at hfind
    exact absurd (by simpa [chatHasID] using hid) (hfind c hc)

theorem First_error_of_absent (s : Store) (fault : Bool) (id : Int)
    (h : ∀ c ∈ s.chats, (c.ID : Int) ≠ id) : ∃ e, s.First fault id = .error e := by
  unfold Store.First
  cases fault with
  | true => exact ⟨.storage, by simp⟩
  | false =>
    have hfind : s.chats.find? (chatHasID id) = none := by
      rw [List.find?_eq_none]
      intro c hc
      simpa [chatHasID] using h c hc
    exact ⟨.recordNotFound, by simp [hfind]⟩

/-- The page `GetChat` answers with when the chat is found and the message
query succeeds: the newest `limit` rows, oldest first. -/
theorem GetChat_found (s : Store) (f : Faults) (id limitStr : String) (cid : Int) (c : Chat)
    (hid : Atoi id = some cid) (hfirst : s.First f.first cid = .ok c) (hfind : f.find = false) :
    GetChat s f id limitStr =
      (⟨200, .chatMessages c
        (((s.chatMessages cid).insertionSort newerFirst).take (GetChat.limit limitStr).toNat).reverse⟩,
        s) := by
  simp only [GetChat, hid, hfirst, Store.FindMessages, hfind, reverseLoop_eq_reverse]
  simp

theorem newest_page (L : List Message) (K : Nat) (hK : K ≤ L.length)
    (hdistinct : (L.map Message.CreatedAt).Nodup) :
    let page := ((L.insertionSort newerFirst).take K).reverse
    page.length = K ∧
    page.Pairwise (fun a b => a.CreatedAt < b.CreatedAt) ∧
    (∀ m ∈ page, m ∈ L) ∧
    (∀ m ∈ L, m ∉ page → ∀ x ∈ page, m.CreatedAt < x.CreatedAt) := by
  intro page
  have hperm := List.perm_insertionSort newerFirst L
  have hsorted : (L.insertionSort newerFirst).Pairwise newerFirst :=
    List.sorted_insertionSort newerFirst L
  have hnodup : (L.insertionSort newerFirst).Pairwise
      (fun a b => a.CreatedAt ≠ b.CreatedAt) := by
    have h1 : ((L.insertionSort newerFirst).map Message.CreatedAt).Nodup :=
      ((hperm.map Message.CreatedAt).nodup_iff).mpr hdistinct
    exact List.pairwise_map.mp h1
  have hstrict : (L.insertionSort newerFirst).Pairwise
      (fun a b => b.CreatedAt < a.CreatedAt) :=
    (hsorted.and hnodup).imp (fun {a b} h => lt_of_le_of_ne h.1 (Ne.symm h.2))
  have hsplit := List.take_append_drop K (L.insertionSort newerFirst)
  refine ⟨?_, ?_, ?_, ?_⟩
  · simp only [page, List.length_reverse, List.length_take, hperm.length_eq]
    omega
  · exact List.pairwise_reverse.mpr (hstrict.sublist (List.take_sublist _ _))
  · intro m hm
    have h1 : m ∈ (L.insertionSort newerFirst).take K := List.mem_reverse.mp hm
    exact hperm.subset (List.mem_of_mem_take h1)
  · intro m hm hnot x hx
    have hx1 : x ∈ (L.insertionSort newerFirst).take K := List.mem_reverse.mp hx
    have hm1 : m ∈ (L.insertionSort newerFirst).take K ++ (L.insertionSort newerFirst).drop K := by
      rw [hsplit]
      exact hperm.symm.subset hm
    have hm2 : m ∈ (L.insertionSort newerFirst).drop K := by
      rcases List.mem_append.mp hm1 with h | h
      · exact absurd (List.mem_reverse.mpr h) hnot
      · exact h
    rw [← hsplit] at hstrict
    exact (List.pairwise_append.mp hstrict).2.2 x hx1 m hm2

/-- C3 (amended): with `n` messages at pairwise distinct times in the chat and
`limit=k`, `0 < k < n`, `GetChat` answers 200 with exactly the `min k 100`
newest messages of the chat, oldest of the page first. -/
theorem GetChat_window (s : Store) (f : Faults) (id limitStr : String) (cid k : Int) (c : Chat)
    (hid : Atoi id = some cid) (hc : c ∈ s.chats) (hcid : (c.ID : Int) = cid)
    (hfirst : f.first = false) (hfind : f.find = false)
    (hlimit : Atoi limitStr = some k) (hk : 0 < k)
    (hn : k < ((s.chatMessages cid).length : Int))
    (hdistinct : ((s.chatMessages cid).map Message.CreatedAt).Nodup) :
    (GetChat s f id limitStr).1.status = 200 ∧
    ((GetChat s f id limitStr).1.messages.length : Int) = min k 100 ∧
    (GetChat s f id limitStr).1.messages.Pairwise (fun a b => a.CreatedAt < b.CreatedAt) ∧
    (∀ m ∈ (GetChat s f id limitStr).1.messages, m ∈ s.chatMessages cid) ∧
    (∀ m ∈ s.chatMessages cid, m ∉ (GetChat s f id limitStr).1.messages →
      ∀ x ∈ (GetChat s f id limitStr).1.messages, m.CreatedAt < x.CreatedAt) := by
  obtain ⟨c', hc'⟩ := First_ok_of_mem s cid c hc hcid
  rw [← hfirst] at hc'
  rw [GetChat_found s f id limitStr cid c' hid hc' hfind, GetChat_limit_of_pos limitStr k hlimit hk]
  have hK : (min k 100).toNat ≤ (s.chatMessages cid).length := by omega
  obtain ⟨h1, h2, h3, h4⟩ := newest_page (s.chatMessages cid) (min k 100).toNat hK hdistinct
  refine ⟨rfl, ?_, h2, h3, h4⟩
  simp only [Response.messages]
  rw [h1]
  omega

theorem GetChat_window_witness :
    (Atoi "1" = some 1 ∧ Atoi "2" = some 2 ∧ (0 : Int) < 2 ∧
      (2 : Int) < ((sampleStore.chatMessages 1).length : Int)) ∧
    ((GetChat sampleStore Faults.none "1" "2").1.status = 200 ∧
    ((GetChat sampleStore Faults.none "1" "2").1.messages.length : Int) = min 2 100 ∧
    (GetChat sampleStore Faults.none "1" "2").1.messages.Pairwise
      (fun a b => a.CreatedAt < b.CreatedAt) ∧
    (∀ m ∈ (GetChat sampleStore Faults.none "1" "2").1.messages, m ∈ sampleStore.chatMessages 1) ∧
    (∀ m ∈ sampleStore.chatMessages 1, m ∉ (GetChat sampleStore Faults.none "1" "2").1.messages →
      ∀ x ∈ (GetChat sampleStore Faults.none "1" "2").1.messages, m.CreatedAt < x.CreatedAt)) :=
  ⟨⟨by decide, by decide, by decide, by decide⟩,
   GetChat_window sampleStore Faults.none "1" "2" 1 2 ⟨1, "general", 5⟩
    (by decide) (by decide) (by decide) rfl rfl (by decide) (by decide) (by decide) (by decide)⟩

theorem busyStore_chatMessages_length : (busyStore.chatMessages 1).length = 102 := by
  decide

/-- C3 as stated fails: with 102 messages at distinct times and `limit=101`,
`GetChat` answers with 100 messages, not 101. -/
theorem GetChat_window_counterexample :
    Atoi "101" = some 101 ∧ (busyStore.chatMessages 1).length = 102 ∧
    ((busyStore.chatMessages 1).map Message.CreatedAt).Nodup ∧
    (GetChat busyStore Faults.none "1" "101").1.status = 200 ∧
    (GetChat busyStore Faults.none "1" "101").1.messages.length = 100 ∧
    (GetChat busyStore Faults.none "1" "101").1.messages.length ≠ 101 := by
  have hid : Atoi "1" = some 1 := by decide
  have hl : Atoi "101" = some 101 := by decide
  have hfirst : busyStore.First Faults.none.first 1 = .ok ⟨1, "busy", 0⟩ := rfl
  have hlen : (GetChat busyStore Faults.none "1" "101").1.messages.length = 100 := by
    rw [GetChat_found busyStore Faults.none "1" "101" 1 _ hid hfirst rfl,
      GetChat_limit_of_pos "101" 101 hl (by decide)]
    simp only [Response.messages, List.length_reverse, List.length_take,
      (List.perm_insertionSort newerFirst _).length_eq, busyStore_chatMessages_length]
    decide
  refine ⟨hl, busyStore_chatMessages_length, by decide, ?_, hlen, ?_⟩
  · rw [GetChat_found busyStore Faults.none "1" "101" 1 _ hid hfirst rfl]
  · rw [hlen]
    decide

/-! ## Limit resolution -/

/-- C4 (amended): the window is 20 for an absent, empty or non-numeric `limit`
and for a numeral outside the 64-bit `int` range, 100 for an in-range integer
above 100, the integer itself in 1..100, and 20 for an integer `<= 0`; the
status of `GetChat` never depends on `limit`. -/
theorem GetChat_limit_resolution (limitStr : String) :
    GetChat.limit limitStr =
      (if limitStr = "" then 20
       else
        match decimalValue limitStr with
        | some v =>
          if v < minInt ∨ maxInt < v then 20
          else if 100 < v then 100 else if 1 ≤ v then v else 20
        | none => 20) ∧
    ∀ (s : Store) (f : Faults) (id : String),
      (GetChat s f id limitStr).1.status = (GetChat s f id "").1.status := by
  constructor
  · unfold GetChat.limit Atoi
    by_cases hempty : limitStr = ""
    · simp [hempty]
    · rw [if_pos hempty, if_neg hempty]
      cases hdec : decimalValue limitStr with
      | none => rfl
      | some v =>
        simp only []
        by_cases hrange : minInt ≤ v ∧ v ≤ maxInt
        · have hnot : ¬ (v < minInt ∨ maxInt < v) := by omega
          rw [if_pos hrange, if_neg hnot]
          simp only [gt_iff_lt]
          split_ifs <;> omega
        · have hout : v < minInt ∨ maxInt < v := by omega
          rw [if_neg hrange, if_pos hout]
  · intro s f id
    unfold GetChat
    cases Atoi id with
    | none => rfl
    | some cid =>
      simp only []
      cases s.First f.first cid with
      | error e => rfl
      | ok c => rfl

/-- C4 as stated fails: `limit=9223372036854775808` denotes an integer greater
than 100, yet the resolved window is 20, not 100. -/
theorem GetChat_limit_counterexample :
    decimalValue "9223372036854775808" = some 9223372036854775808 ∧
    specLimit "9223372036854775808" = 100 ∧
    GetChat.limit "9223372036854775808" = 20 ∧
    GetChat.limit "9223372036854775808" ≠ specLimit "9223372036854775808" := by
  decide

/-! ## Path identifiers -/

/-- C5 (amended): a path segment that `strconv.Atoi` rejects makes
`CreateMessage`, `GetChat` and `DeleteChat` answer 400 whatever the store holds,
and leaves the store as it was. -/
theorem invalid_id_rejected (s : Store) (f : Faults) (now : Nat) (id limitStr : String)
    (body : Option String) (hid : Atoi id = none) :
    CreateMessage s f now id body = (⟨400, .error "Invalid chat ID"⟩, s) ∧
    GetChat s f id limitStr = (⟨400, .error "Invalid chat ID"⟩, s) ∧
    DeleteChat s f id = (⟨400, .error "Invalid chat ID"⟩, s) := by
  simp only [CreateMessage, GetChat, DeleteChat, hid, and_self]

theorem invalid_id_rejected_witness :
    Atoi "abc" = none ∧
    (CreateMessage sampleStore Faults.none 7 "abc" (some "hi") =
        (⟨400, .error "Invalid chat ID"⟩, sampleStore) ∧
      GetChat sampleStore Faults.none "abc" "5" = (⟨400, .error "Invalid chat ID"⟩, sampleStore) ∧
      DeleteChat sampleStore Faults.none "abc" = (⟨400, .error "Invalid chat ID"⟩, sampleStore)) :=
  ⟨by decide, invalid_id_rejected sampleStore Faults.none 7 "abc" "5" (some "hi") (by decide)⟩

/-- C5 as stated fails: the ids `0` and `-5` are not positive integers, yet the
three handlers pass them to the store and answer 404, not 400. -/
theorem nonpositive_id_counterexample :
    Atoi "0" = some 0 ∧ Atoi "-5" = some (-5) ∧
    (CreateMessage sampleStore Faults.none 7 "0" (some "hi")).1.status = 404 ∧
    (GetChat sampleStore Faults.none "0" "").1.status = 404 ∧
    (DeleteChat sampleStore Faults.none "0").1.status = 404 ∧
    (CreateMessage sampleStore Faults.none 7 "-5" (some "hi")).1.status = 404 ∧
    (GetChat sampleStore Faults.none "-5" "").1.status = 404 ∧
    (DeleteChat sampleStore Faults.none "-5").1.status = 404 := by
  have h0 : Atoi "0" = some 0 := by decide
  have h5 : Atoi "-5" = some (-5) := by decide
  refine ⟨h0, h5, ?_, ?_, ?_, ?_, ?_, ?_⟩ <;>
    simp [CreateMessage, GetChat, DeleteChat, h0, h5, Store.First, Store.DeleteChat,
      sampleStore, Faults.none, chatHasID]

/-! ## Message creation -/

/-- C7: when the path id parses to an integer that names no chat, `CreateMessage`
answers 404 whatever the body is (undecodable, empty, over-long or valid). -/
theorem CreateMessage_missing_chat (s : Store) (f : Faults) (now : Nat) (id : String)
    (body : Option String) (n : Int) (hid : Atoi id = some n)
    (habsent : ∀ c ∈ s.chats, (c.ID : Int) ≠ n) :
    CreateMessage s f now id body = (⟨404, .error "Chat not found"⟩, s) := by
  obtain ⟨e, he⟩ := First_error_of_absent s f.first n habsent
  simp only [CreateMessage, hid, he]

theorem CreateMessage_missing_chat_witness :
    (Atoi "999" = some 999 ∧ ∀ c ∈ sampleStore.chats, (c.ID : Int) ≠ 999) ∧
    CreateMessage sampleStore Faults.none 7 "999" none =
      (⟨404, .error "Chat not found"⟩, sampleStore) :=
  ⟨⟨by decide, by decide⟩,
   CreateMessage_missing_chat sampleStore Faults.none 7 "999" none 999 (by decide) (by decide)⟩

/-- C2: on an existing chat, a text of 2501 two-byte letters has 2501
characters after trimming, yet `CreateMessage` answers 400, because the guard
measures bytes. -/
theorem CreateMessage_rejects_2501_letters :
    runeCount (TrimSpace (String.mk (List.replicate 2501 'Я'))) = 2501 ∧
    CreateMessage sampleStore Faults.none 7 "1" (some (String.mk (List.replicate 2501 'Я')))
      = (⟨400, .error "Text must be between 1 and 5000 characters"⟩, sampleStore) := by
  have hsp : isSpace 'Я' = false := by decide
  have hid : Atoi "1" = some 1 := by decide
  have hfirst : sampleStore.First Faults.none.first 1 = .ok ⟨1, "general", 5⟩ := rfl
  have hlen : len (String.mk (List.replicate 2501 'Я')) = 5002 := by
    rw [len_replicate]; decide
  refine ⟨by rw [TrimSpace_replicate 2501 _ hsp, runeCount_replicate], ?_⟩
  simp only [CreateMessage, hid, hfirst, TrimSpace_replicate 2501 _ hsp, hlen]
  simp

/-! ## Chat deletion -/

theorem Store.with_self (s : Store) :
    { s with chats := s.chats, messages := s.messages } = s := by
  cases s
  rfl

/-- The outcome of `DeleteChat` on a chat that exists, when the delete call
works: 204, the rows with that key gone, and their messages with them when the
foreign key is enforced. -/
theorem DeleteChat_found (s : Store) (f : Faults) (id : String) (n : Int) (c : Chat)
    (hid : Atoi id = some n) (hc : c ∈ s.chats) (hcid : (c.ID : Int) = n)
    (hdel : f.delete = false) :
    DeleteChat s f id =
      (⟨204, .empty⟩,
        { s with
          chats := s.chats.filter (fun c => !chatHasID n c),
          messages :=
            if s.foreignKeys then s.messages.filter (fun m => !messageInChat n m)
            else s.messages }) := by
  have hmem : c ∈ s.chats.filter (chatHasID n) :=
    List.mem_filter.mpr ⟨hc, by simpa [chatHasID] using hcid⟩
  have hrows : 0 < (s.chats.filter (chatHasID n)).length := List.length_pos_of_mem hmem
  have hne : (s.chats.filter (chatHasID n)).length ≠ 0 := by omega
  simp only [DeleteChat, hid, Store.DeleteChat, hdel, hrows, hne, Bool.false_eq_true, if_false,
    decide_True, Bool.and_true]

/-- C8: deleting a chat that exists answers 204, leaves no chat with that id in
the store, and a later `GetChat` on the id answers 404 and so lists no message. -/
theorem DeleteChat_then_GetChat (s : Store) (f g : Faults) (id limitStr : String) (n : Int)
    (c : Chat) (hid : Atoi id = some n) (hc : c ∈ s.chats) (hcid : (c.ID : Int) = n)
    (hdel : f.delete = false) :
    (DeleteChat s f id).1 = ⟨204, .empty⟩ ∧
    (∀ c' ∈ (DeleteChat s f id).2.chats, (c'.ID : Int) ≠ n) ∧
    (GetChat (DeleteChat s f id).2 g id limitStr).1 = ⟨404, .error "Chat not found"⟩ ∧
    (GetChat (DeleteChat s f id).2 g id limitStr).1.messages = [] := by
  have hgone : ∀ c' ∈ (DeleteChat s f id).2.chats, (c'.ID : Int) ≠ n := by
    rw [DeleteChat_found s f id n c hid hc hcid hdel]
    intro c' hc'
    have h := (List.mem_filter.mp hc').2
    simpa [chatHasID] using h
  obtain ⟨e, he⟩ := First_error_of_absent (DeleteChat s f id).2 g.first n hgone
  have hget : (GetChat (DeleteChat s f id).2 g id limitStr).1 =
      ⟨404, .error "Chat not found"⟩ := by
    simp only [GetChat, hid, he]
  refine ⟨?_, hgone, hget, ?_⟩
  · rw [DeleteChat_found s f id n c hid hc hcid hdel]
  · rw [hget]
    rfl

theorem DeleteChat_then_GetChat_witness :
    (Atoi "1" = some 1 ∧ (⟨1, "general", 5⟩ : Chat) ∈ sampleStore.chats) ∧
    ((DeleteChat sampleStore Faults.none "1").1 = ⟨204, .empty⟩ ∧
    (∀ c' ∈ (DeleteChat sampleStore Faults.none "1").2.chats, (c'.ID : Int) ≠ 1) ∧
    (GetChat (DeleteChat sampleStore Faults.none "1").2 Faults.none "1" "10").1 =
      ⟨404, .error "Chat not found"⟩ ∧
    (GetChat (DeleteChat sampleStore Faults.none "1").2 Faults.none "1" "10").1.messages = []) :=
  ⟨⟨by decide, by decide⟩,
   DeleteChat_then_GetChat sampleStore Faults.none Faults.none "1" "10" 1 ⟨1, "general", 5⟩
    (by decide) (by decide) (by decide) rfl⟩

/-- C10: when the path id parses to an integer that names no chat and the
delete call works, `DeleteChat` answers 404 and the store is what it was. -/
theorem DeleteChat_missing (s : Store) (f : Faults) (id : String) (n : Int)
    (hid : Atoi id = some n) (habsent : ∀ c ∈ s.chats, (c.ID : Int) ≠ n)
    (hdel : f.delete = false) :
    DeleteChat s f id = (⟨404, .error "Chat not found"⟩, s) := by
  have hhit : s.chats.filter (chatHasID n) = [] := by
    rw [List.filter_eq_nil_iff]
    intro c hc
    simpa [chatHasID] using habsent c hc
  have hkeep : s.chats.filter (fun c => !chatHasID n c) = s.chats := by
    rw [List.filter_eq_self]
    intro c hc
    simpa [chatHasID] using habsent c hc
  simp only [DeleteChat, hid, Store.DeleteChat, hdel, hhit, hkeep, List.length_nil,
    Bool.false_eq_true, if_false, lt_self_iff_false, decide_False, Bool.and_false, if_true,
    Store.with_self]

theorem DeleteChat_missing_witness :
    (Atoi "999" = some 999 ∧ ∀ c ∈ sampleStore.chats, (c.ID : Int) ≠ 999) ∧
    DeleteChat sampleStore Faults.none "999" = (⟨404, .error "Chat not found"⟩, sampleStore) :=
  ⟨⟨by decide, by decide⟩,
   DeleteChat_missing sampleStore Faults.none "999" 999 (by decide) (by decide) rfl⟩

/-! ## Storage errors -/

/-- The store calls whose error the handlers turn into 500: the insert of
`CreateChat`, the insert of `CreateMessage` and the delete of `DeleteChat`. -/
theorem storage_error_500 (s : Store) (f : Faults) (now : Nat) (id : String)
    (body : Option String) :
    (f.create = true → ∀ t, body = some t → TrimSpace t ≠ "" → len (TrimSpace t) ≤ 200 →
      CreateChat s f now body = (⟨500, .error "Failed to create chat"⟩, s)) ∧
    (f.delete = true → ∀ n, Atoi id = some n →
      DeleteChat s f id = (⟨500, .error "Failed to delete chat"⟩, s)) := by
  constructor
  · intro hf t hb h1 h2
    have hguard : ¬ (TrimSpace t = "" ∨ len (TrimSpace t) > 200) := by
      rintro (h | h)
      · exact h1 h
      · omega
    simp only [CreateChat, hb, if_neg hguard, Store.CreateChat, hf, if_true]
  · intro hf n hid
    simp only [DeleteChat, hid, Store.DeleteChat, hf, if_true]

/-- C9: a storage error of the chat lookup is answered 404 by `GetChat` and by
`CreateMessage`, and a storage error of the message query is answered 200 with
an empty message list, although chat 1 exists and holds three messages. -/
theorem storage_error_masked :
    sampleStore.First true 1 = .error .storage ∧
    sampleStore.FindMessages true 1 20 = .error .storage ∧
    (sampleStore.chatMessages 1).length = 3 ∧
    GetChat sampleStore Faults.firstFails "1" "" =
      (⟨404, .error "Chat not found"⟩, sampleStore) ∧
    CreateMessage sampleStore Faults.firstFails 7 "1" (some "hi") =
      (⟨404, .error "Chat not found"⟩, sampleStore) ∧
    GetChat sampleStore Faults.findFails "1" "" =
      (⟨200, .chatMessages ⟨1, "general", 5⟩ []⟩, sampleStore) := by
  have hid : Atoi "1" = some 1 := by decide
  have hrev : reverseLoop [] 0 0 = [] := by rw [reverseLoop]; simp
  refine ⟨rfl, rfl, by decide, ?_, ?_, ?_⟩
  · simp [GetChat, hid, Store.First, Faults.firstFails]
  · simp [CreateMessage, hid, Store.First, Faults.firstFails]
  · simp [GetChat, hid, Store.First, Store.FindMessages, Faults.findFails, sampleStore,
      chatHasID, hrev]

/-! ## The success paths, with the length measured as the code measures it -/

theorem Atoi_range (t : String) (v : Int) (h : Atoi t = some v) : minInt ≤ v ∧ v ≤ maxInt := by
  unfold Atoi at h
  cases hdec : decimalValue t with
  | none => simp [hdec] at h
  | some w =>
    simp only [hdec] at h
    by_cases hr : minInt ≤ w ∧ w ≤ maxInt
    · rw [if_pos hr] at h
      cases h
      exact hr
    · rw [if_neg hr] at h
      cases h

theorem toUint_of_chat_id (t : String) (n : Int) (k : Nat) (h : Atoi t = some n)
    (hk : (k : Int) = n) : toUint n = k := by
  have hr := Atoi_range t n h
  unfold toUint
  unfold maxInt at hr
  omega

/-- With a trimmed title of 1 to 200 bytes and a working insert, `CreateChat`
answers 201 with the stored chat, whose title is the trimmed title. -/
theorem CreateChat_created (s : Store) (f : Faults) (now : Nat) (title : String)
    (hcreate : f.create = false) (h1 : TrimSpace title ≠ "") (h2 : len (TrimSpace title) ≤ 200) :
    CreateChat s f now (some title) =
      (⟨201, .chat ⟨s.nextChatID, TrimSpace title, now⟩⟩,
        { s with
          chats := s.chats ++ [⟨s.nextChatID, TrimSpace title, now⟩],
          nextChatID := s.nextChatID + 1 }) := by
  have hguard : ¬ (TrimSpace title = "" ∨ len (TrimSpace title) > 200) := by
    rintro (h | h)
    · exact h1 h
    · omega
  simp only [CreateChat, if_neg hguard, Store.CreateChat, hcreate, Bool.false_eq_true, if_false]

/-- With an existing chat, a trimmed text of 1 to 5000 bytes and working store
calls, `CreateMessage` answers 201 with the stored message, whose text is the
trimmed text and whose `chat_id` is the chat's id. -/
theorem CreateMessage_created (s : Store) (f : Faults) (now : Nat) (id text : String) (n : Int)
    (c : Chat) (hid : Atoi id = some n) (hc : c ∈ s.chats) (hcid : (c.ID : Int) = n)
    (hfirst : f.first = false) (hcreate : f.create = false)
    (h1 : TrimSpace text ≠ "") (h2 : len (TrimSpace text) ≤ 5000) :
    CreateMessage s f now id (some text) =
      (⟨201, .message ⟨s.nextMessageID, c.ID, TrimSpace text, now⟩⟩,
        { s with
          messages := s.messages ++ [⟨s.nextMessageID, c.ID, TrimSpace text, now⟩],
          nextMessageID := s.nextMessageID + 1 }) := by
  obtain ⟨c', hc'⟩ := First_ok_of_mem s n c hc hcid
  rw [← hfirst] at hc'
  have hguard : ¬ (TrimSpace text = "" ∨ len (TrimSpace text) > 5000) := by
    rintro (h | h)
    · exact h1 h
    · omega
  have hu : toUint n = c.ID := toUint_of_chat_id id n c.ID hid hcid
  have hany : (s.chats.any (fun x => decide (x.ID = c.ID))) = true :=
    List.any_eq_true.mpr ⟨c, hc, by simp⟩
  simp only [CreateMessage, hid, hc', if_neg hguard, hu, Store.CreateMessage, hcreate, hany,
    Bool.false_eq_true, if_false, Bool.not_true, Bool.and_false]

/-- With an existing chat and a trimmed text of 1 to 5000 bytes, a failing
insert makes `CreateMessage` answer 500 and leaves the store as it was. -/
theorem CreateMessage_insert_error (s : Store) (f : Faults) (now : Nat) (id text : String)
    (n : Int) (c : Chat) (hid : Atoi id = some n) (hc : c ∈ s.chats) (hcid : (c.ID : Int) = n)
    (hfirst : f.first = false) (hcreate : f.create = true)
    (h1 : TrimSpace text ≠ "") (h2 : len (TrimSpace text) ≤ 5000) :
    CreateMessage s f now id (some text) = (⟨500, .error "Failed to create message"⟩, s) := by
  obtain ⟨c', hc'⟩ := First_ok_of_mem s n c hc hcid
  rw [← hfirst] at hc'
  have hguard : ¬ (TrimSpace text = "" ∨ len (TrimSpace text) > 5000) := by
    rintro (h | h)
    · exact h1 h
    · omega
  simp only [CreateMessage, hid, hc', if_neg hguard, Store.CreateMessage, hcreate, if_true]

/-! ## What each handler does to the store -/

theorem First_ok_mem (s : Store) (fault : Bool) (id : Int) (c : Chat)
    (h : s.First fault id = .ok c) : c ∈ s.chats ∧ (c.ID : Int) = id := by
  unfold Store.First at h
  cases fault with
  | true => simp at h
  | false =>
    cases hfind : s.chats.find? (chatHasID id) with
    | none => simp [hfind] at h
    | some c' =>
      simp only [hfind, Bool.false_eq_true, if_false] at h
      cases h
      refine ⟨List.mem_of_find?_eq_some hfind, ?_⟩
      simpa [chatHasID] using List.find?_some hfind

/-- The outcome of `DeleteChat` when no chat has the id and the delete call
works: zero rows affected, 404, and the store as it was. -/
theorem DeleteChat_absent (s : Store) (f : Faults) (id : String) (n : Int)
    (hid : Atoi id = some n) (habsent : ∀ c ∈ s.chats, (c.ID : Int) ≠ n)
    (hdel : f.delete = false) :
    DeleteChat s f id = (⟨404, .error "Chat not found"⟩, s) := by
  have hhit : s.chats.filter (chatHasID n) = [] := by
    rw [List.filter_eq_nil_iff]
    intro c hc
    simpa [chatHasID] using habsent c hc
  have hkeep : s.chats.filter (fun c => !chatHasID n c) = s.chats := by
    rw [List.filter_eq_self]
    intro c hc
    simpa [chatHasID] using habsent c hc
  simp only [DeleteChat, hid, Store.DeleteChat, hdel, hhit, hkeep, List.length_nil,
    Bool.false_eq_true, if_false, lt_self_iff_false, decide_False, Bool.and_false, if_true,
    Store.with_self]

/-- `CreateChat` either answers 400 or 500 and leaves the store as it was, or
answers 201 and appends one chat. -/
theorem CreateChat_store (s : Store) (f : Faults) (now : Nat) (body : Option String) :
    (((CreateChat s f now body).1.status = 400 ∨ (CreateChat s f now body).1.status = 500) ∧
      (CreateChat s f now body).2 = s) ∨
    ((CreateChat s f now body).1.status = 201 ∧
      ∃ c, (CreateChat s f now body).2 =
        { s with chats := s.chats ++ [c], nextChatID := s.nextChatID + 1 }) := by
  cases body with
  | none => exact Or.inl ⟨Or.inl rfl, rfl⟩
  | some t =>
    by_cases hguard : TrimSpace t = "" ∨ len (TrimSpace t) > 200
    · have h : CreateChat s f now (some t) =
          (⟨400, .error "Title must be between 1 and 200 characters"⟩, s) := by
        simp only [CreateChat, if_pos hguard]
      rw [h]
      exact Or.inl ⟨Or.inl rfl, rfl⟩
    · cases hf : f.create with
      | true =>
        have h : CreateChat s f now (some t) = (⟨500, .error "Failed to create chat"⟩, s) := by
          simp only [CreateChat, if_neg hguard, Store.CreateChat, hf, if_true]
        rw [h]
        exact Or.inl ⟨Or.inr rfl, rfl⟩
      | false =>
        have h : CreateChat s f now (some t) =
            (⟨201, .chat ⟨s.nextChatID, TrimSpace t, now⟩⟩,
              { s with
                chats := s.chats ++ [⟨s.nextChatID, TrimSpace t, now⟩],
                nextChatID := s.nextChatID + 1 }) := by
          simp only [CreateChat, if_neg hguard, Store.CreateChat, hf, Bool.false_eq_true, if_false]
        rw [h]
        exact Or.inr ⟨rfl, _, rfl⟩

/-- `CreateMessage` either answers 400, 404 or 500 and leaves the store as it
was, or answers 201 and appends one message whose `chat_id` is the id of a
stored chat. -/
theorem CreateMessage_store (s : Store) (f : Faults) (now : Nat) (id : String)
    (body : Option String) :
    (((CreateMessage s f now id body).1.status = 400 ∨
        (CreateMessage s f now id body).1.status = 404 ∨
        (CreateMessage s f now id body).1.status = 500) ∧
      (CreateMessage s f now id body).2 = s) ∨
    ((CreateMessage s f now id body).1.status = 201 ∧
      ∃ m c, c ∈ s.chats ∧ c.ID = m.ChatID ∧
        (CreateMessage s f now id body).2 =
          { s with messages := s.messages ++ [m], nextMessageID := s.nextMessageID + 1 }) := by
  cases hid : Atoi id with
  | none =>
    have h : CreateMessage s f now id body = (⟨400, .error "Invalid chat ID"⟩, s) := by
      simp only [CreateMessage, hid]
    rw [h]
    exact Or.inl ⟨Or.inl rfl, rfl⟩
  | some n =>
    cases hfirst : s.First f.first n with
    | error e =>
      have h : CreateMessage s f now id body = (⟨404, .error "Chat not found"⟩, s) := by
        simp only [CreateMessage, hid, hfirst]
      rw [h]
      exact Or.inl ⟨Or.inr (Or.inl rfl), rfl⟩
    | ok c =>
      obtain ⟨hc, hcid⟩ := First_ok_mem s f.first n c hfirst
      cases body with
      | none =>
        have h : CreateMessage s f now id none = (⟨400, .error "Invalid request body"⟩, s) := by
          simp only [CreateMessage, hid, hfirst]
        rw [h]
        exact Or.inl ⟨Or.inl rfl, rfl⟩
      | some t =>
        by_cases hguard : TrimSpace t = "" ∨ len (TrimSpace t) > 5000
        · have h : CreateMessage s f now id (some t) =
              (⟨400, .error "Text must be between 1 and 5000 characters"⟩, s) := by
            simp only [CreateMessage, hid, hfirst, if_pos hguard]
          rw [h]
          exact Or.inl ⟨Or.inl rfl, rfl⟩
        · have h1 : TrimSpace t ≠ "" := fun h => hguard (Or.inl h)
          have h2 : len (TrimSpace t) ≤ 5000 := by
            by_contra hlt
            exact hguard (Or.inr (by omega))
          have hfalse : f.first = false := by
            cases hff : f.first with
            | false => rfl
            | true =>
              rw [hff] at hfirst
              simp [Store.First] at hfirst
          cases hf : f.create with
          | true =>
            rw [CreateMessage_insert_error s f now id t n c hid hc hcid hfalse hf h1 h2]
            exact Or.inl ⟨Or.inr (Or.inr rfl), rfl⟩
          | false =>
            rw [CreateMessage_created s f now id t n c hid hc hcid hfalse hf h1 h2]
            exact Or.inr ⟨rfl, _, c, hc, rfl, rfl⟩

/-- `GetChat` never changes the store. -/
theorem GetChat_store (s : Store) (f : Faults) (id limitStr : String) :
    (GetChat s f id limitStr).2 = s := by
  unfold GetChat
  cases Atoi id with
  | none => rfl
  | some n =>
    simp only []
    cases s.First f.first n with
    | error e => rfl
    | ok c => rfl

/-- `DeleteChat` either answers 400, 404 or 500 and leaves the store as it was,
or answers 204 and removes the chats with the id, together with their messages
when the foreign key is enforced. -/
theorem DeleteChat_store (s : Store) (f : Faults) (id : String) :
    (((DeleteChat s f id).1.status = 400 ∨ (DeleteChat s f id).1.status = 404 ∨
        (DeleteChat s f id).1.status = 500) ∧
      (DeleteChat s f id).2 = s) ∨
    ((DeleteChat s f id).1.status = 204 ∧
      ∃ n, Atoi id = some n ∧
        (DeleteChat s f id).2 =
          { s with
            chats := s.chats.filter (fun c => !chatHasID n c),
            messages :=
              if s.foreignKeys then s.messages.filter (fun m => !messageInChat n m)
              else s.messages }) := by
  cases hid : Atoi id with
  | none =>
    have h : DeleteChat s f id = (⟨400, .error "Invalid chat ID"⟩, s) := by
      simp only [DeleteChat, hid]
    rw [h]
    exact Or.inl ⟨Or.inl rfl, rfl⟩
  | some n =>
    cases hf : f.delete with
    | true =>
      have h : DeleteChat s f id = (⟨500, .error "Failed to delete chat"⟩, s) := by
        simp only [DeleteChat, hid, Store.DeleteChat, hf, if_true]
      rw [h]
      exact Or.inl ⟨Or.inr (Or.inr rfl), rfl⟩
    | false =>
      by_cases hrows : ∀ c ∈ s.chats, (c.ID : Int) ≠ n
      · rw [DeleteChat_absent s f id n hid hrows hf]
        exact Or.inl ⟨Or.inr (Or.inl rfl), rfl⟩
      · have hex : ∃ c, c ∈ s.chats ∧ (c.ID : Int) = n := by
          by_contra hne
          exact hrows (fun c hc hcn => hne ⟨c, hc, hcn⟩)
        obtain ⟨c, hc, hcn⟩ := hex
        rw [DeleteChat_found s f id n c hid hc hcn hf]
        exact Or.inr ⟨rfl, n, rfl, rfl⟩

/-! ## Referential integrity -/

theorem refIntegrity_empty (fk : Bool) : refIntegrity (Store.empty fk) := by
  intro m hm
  simp [Store.empty] at hm

theorem refIntegrity_add_chat (s : Store) (c : Chat) (k : Nat) (hinv : refIntegrity s) :
    refIntegrity { s with chats := s.chats ++ [c], nextChatID := k } := by
  intro m hm
  obtain ⟨c', hc', hid⟩ := hinv m hm
  exact ⟨c', List.mem_append_left _ hc', hid⟩

theorem refIntegrity_add_message (s : Store) (m : Message) (c : Chat) (k : Nat)
    (hinv : refIntegrity s) (hc : c ∈ s.chats) (hid : c.ID = m.ChatID) :
    refIntegrity { s with messages := s.messages ++ [m], nextMessageID := k } := by
  intro m' hm'
  rcases List.mem_append.mp hm' with h | h
  · exact hinv m' h
  · have hmm : m' = m := by simpa using h
    subst hmm
    exact ⟨c, hc, hid⟩

theorem refIntegrity_cascade (s : Store) (n : Int) (hfk : s.foreignKeys = true)
    (hinv : refIntegrity s) :
    refIntegrity
      { s with
        chats := s.chats.filter (fun c => !chatHasID n c),
        messages :=
          if s.foreignKeys then s.messages.filter (fun m => !messageInChat n m)
          else s.messages } := by
  intro m hm
  simp only [hfk, if_true] at hm
  obtain ⟨hmem, hkeep⟩ := List.mem_filter.mp hm
  obtain ⟨c, hc, hid⟩ := hinv m hmem
  refine ⟨c, List.mem_filter.mpr ⟨hc, ?_⟩, hid⟩
  simp only [messageInChat, chatHasID, hid] at hkeep ⊢
  exact hkeep

/-- One request keeps referential integrity, and keeps the foreign key
enforced, on a store that enforces it. -/
theorem InitHandlers_integrity (s : Store) (f : Faults) (now : Nat) (r : Request)
    (hfk : s.foreignKeys = true) (hinv : refIntegrity s) :
    refIntegrity (InitHandlers s f now r).2 ∧ (InitHandlers s f now r).2.foreignKeys = true := by
  cases r with
  | createChat body =>
    rcases CreateChat_store s f now body with ⟨_, h⟩ | ⟨_, c, h⟩
    · simp only [InitHandlers, h]
      exact ⟨hinv, hfk⟩
    · simp only [InitHandlers, h]
      exact ⟨refIntegrity_add_chat s c _ hinv, hfk⟩
  | createMessage id body =>
    rcases CreateMessage_store s f now id body with ⟨_, h⟩ | ⟨_, m, c, hc, hid, h⟩
    · simp only [InitHandlers, h]
      exact ⟨hinv, hfk⟩
    · simp only [InitHandlers, h]
      exact ⟨refIntegrity_add_message s m c _ hinv hc hid, hfk⟩
  | getChat id limitStr =>
    simp only [InitHandlers, GetChat_store]
    exact ⟨hinv, hfk⟩
  | deleteChat id =>
    rcases DeleteChat_store s f id with ⟨_, h⟩ | ⟨_, n, _, h⟩
    · simp only [InitHandlers, h]
      exact ⟨hinv, hfk⟩
    · simp only [InitHandlers, h]
      exact ⟨refIntegrity_cascade s n hfk hinv, hfk⟩
  | healthCheck => exact ⟨hinv, hfk⟩

/-- Every store reached from one that enforces the foreign key and has
referential integrity has it too, whatever requests are served. -/
theorem serve_integrity (reqs : List (Faults × Nat × Request)) :
    ∀ s : Store, s.foreignKeys = true → refIntegrity s →
      refIntegrity (serve s reqs) ∧ (serve s reqs).foreignKeys = true := by
  induction reqs with
  | nil => intro s hfk hinv; exact ⟨hinv, hfk⟩
  | cons q rest ih =>
    intro s hfk hinv
    obtain ⟨f, now, r⟩ := q
    obtain ⟨h1, h2⟩ := InitHandlers_integrity s f now r hfk hinv
    exact ih _ h2 h1

/-- Messages left after a `DeleteChat` that answers 204 on a store enforcing the
foreign key: none belongs to the deleted id. -/
theorem DeleteChat_cascade (s : Store) (f : Faults) (id : String) (n : Int)
    (hfk : s.foreignKeys = true) (hid : Atoi id = some n)
    (hok : (DeleteChat s f id).1.status = 204) :
    ∀ m ∈ (DeleteChat s f id).2.messages, (m.ChatID : Int) ≠ n := by
  rcases DeleteChat_store s f id with ⟨hst, _⟩ | ⟨_, n', hid', h⟩
  · omega
  · have hn : n' = n := by
      rw [hid] at hid'
      exact (Option.some.inj hid').symm
    subst hn
    rw [h]
    intro m hm
    simp only [hfk, if_true] at hm
    have hkeep := (List.mem_filter.mp hm).2
    simpa [messageInChat] using hkeep

/-- C11: on a store that enforces the cascading foreign key, "every stored
message's `chat_id` is the id of a stored chat" holds in the empty store, is
kept by every handler for every request, and after a `DeleteChat` of id `n`
that answers 204 no stored message has `chat_id = n`. -/
theorem referential_integrity (s : Store) (f : Faults) (now : Nat) (r : Request)
    (hfk : s.foreignKeys = true) (hinv : refIntegrity s) :
    refIntegrity (Store.empty true) ∧
    refIntegrity (InitHandlers s f now r).2 ∧
    (InitHandlers s f now r).2.foreignKeys = true ∧
    (∀ id n, r = .deleteChat id → Atoi id = some n → (InitHandlers s f now r).1.status = 204 →
      (∀ c ∈ (InitHandlers s f now r).2.chats, (c.ID : Int) ≠ n) ∧
      ∀ m ∈ (InitHandlers s f now r).2.messages, (m.ChatID : Int) ≠ n) := by
  obtain ⟨h1, h2⟩ := InitHandlers_integrity s f now r hfk hinv
  refine ⟨refIntegrity_empty true, h1, h2, ?_⟩
  intro id n hr hid hok
  subst hr
  simp only [InitHandlers] at hok h1 ⊢
  have hmsgs := DeleteChat_cascade s f id n hfk hid hok
  refine ⟨?_, hmsgs⟩
  intro c hc hcn
  rcases DeleteChat_store s f id with ⟨hst, _⟩ | ⟨_, n', hid', h⟩
  · omega
  · have hn : n' = n := by
      rw [hid] at hid'
      exact (Option.some.inj hid').symm
    subst hn
    rw [h] at hc
    have hkeep := (List.mem_filter.mp hc).2
    simp [chatHasID, hcn] at hkeep

theorem referential_integrity_witness :
    (sampleStore.foreignKeys = true ∧ refIntegrity sampleStore ∧
      (InitHandlers sampleStore Faults.none 7 (.deleteChat "1")).1.status = 204) ∧
    (refIntegrity (Store.empty true) ∧
    refIntegrity (InitHandlers sampleStore Faults.none 7 (.deleteChat "1")).2 ∧
    (InitHandlers sampleStore Faults.none 7 (.deleteChat "1")).2.foreignKeys = true ∧
    (∀ id n, Request.deleteChat "1" = .deleteChat id → Atoi id = some n →
      (InitHandlers sampleStore Faults.none 7 (.deleteChat "1")).1.status = 204 →
      (∀ c ∈ (InitHandlers sampleStore Faults.none 7 (.deleteChat "1")).2.chats,
        (c.ID : Int) ≠ n) ∧
      ∀ m ∈ (InitHandlers sampleStore Faults.none 7 (.deleteChat "1")).2.messages,
        (m.ChatID : Int) ≠ n)) :=
  ⟨⟨rfl, by decide, by decide⟩,
   referential_integrity sampleStore Faults.none 7 (.deleteChat "1") rfl (by decide)⟩

/-! ## No partial success -/

/-- C12: whenever `CreateChat`, `CreateMessage` or `DeleteChat` answers 400, 404
or 500, the chats and messages of the store are what they were before the
request; `GetChat` and `HealthCheck` never change them. -/
theorem no_partial_success (s : Store) (f : Faults) (now : Nat) (id limitStr : String)
    (body : Option String) :
    (((CreateChat s f now body).1.status = 400 ∨ (CreateChat s f now body).1.status = 404 ∨
        (CreateChat s f now body).1.status = 500) →
      (CreateChat s f now body).2.chats = s.chats ∧
      (CreateChat s f now body).2.messages = s.messages) ∧
    (((CreateMessage s f now id body).1.status = 400 ∨
        (CreateMessage s f now id body).1.status = 404 ∨
        (CreateMessage s f now id body).1.status = 500) →
      (CreateMessage s f now id body).2.chats = s.chats ∧
      (CreateMessage s f now id body).2.messages = s.messages) ∧
    (((DeleteChat s f id).1.status = 400 ∨ (DeleteChat s f id).1.status = 404 ∨
        (DeleteChat s f id).1.status = 500) →
      (DeleteChat s f id).2.chats = s.chats ∧ (DeleteChat s f id).2.messages = s.messages) ∧
    ((GetChat s f id limitStr).2.chats = s.chats ∧
      (GetChat s f id limitStr).2.messages = s.messages) ∧
    ((HealthCheck s).2.chats = s.chats ∧ (HealthCheck s).2.messages = s.messages) := by
  refine ⟨?_, ?_, ?_, ?_, ⟨rfl, rfl⟩⟩
  · intro herr
    rcases CreateChat_store s f now body with ⟨_, h⟩ | ⟨hok, _⟩
    · rw [h]
      exact ⟨rfl, rfl⟩
    · omega
  · intro herr
    rcases CreateMessage_store s f now id body with ⟨_, h⟩ | ⟨hok, _⟩
    · rw [h]
      exact ⟨rfl, rfl⟩
    · omega
  · intro herr
    rcases DeleteChat_store s f id with ⟨_, h⟩ | ⟨hok, _⟩
    · rw [h]
      exact ⟨rfl, rfl⟩
    · omega
  · rw [GetChat_store]
    exact ⟨rfl, rfl⟩

theorem no_partial_success_witness :
    ((CreateChat sampleStore Faults.none 7 (some "  ")).1.status = 400 ∧
      (CreateMessage sampleStore Faults.none 7 "999" (some "  ")).1.status = 404 ∧
      (DeleteChat sampleStore Faults.none "999").1.status = 404) ∧
    ((CreateChat sampleStore Faults.none 7 (some "  ")).2.chats = sampleStore.chats ∧
      (CreateChat sampleStore Faults.none 7 (some "  ")).2.messages = sampleStore.messages) ∧
    ((CreateMessage sampleStore Faults.none 7 "999" (some "  ")).2.chats = sampleStore.chats ∧
      (CreateMessage sampleStore Faults.none 7 "999" (some "  ")).2.messages =
        sampleStore.messages) ∧
    ((DeleteChat sampleStore Faults.none "999").2.chats = sampleStore.chats ∧
      (DeleteChat sampleStore Faults.none "999").2.messages = sampleStore.messages) :=
  ⟨⟨by decide, by decide, by decide⟩,
   (no_partial_success sampleStore Faults.none 7 "999" "" (some "  ")).1 (Or.inl (by decide)),
   (no_partial_success sampleStore Faults.none 7 "999" "" (some "  ")).2.1
    (Or.inr (Or.inl (by decide))),
   (no_partial_success sampleStore Faults.none 7 "999" "" (some "  ")).2.2.1
    (Or.inr (Or.inl (by decide)))⟩

end ChatApi
